import Mathlib

/-
Verification of the miniMBE register protocol stack: the float register
codec, the velocity planner, the SMCD14 client controller and the SMCD14
emulator motion task.

Modelling conventions:
* A 32-bit IEEE-754 float is represented by its bit pattern, a `Nat`
  below `2 ^ 32`; the codec functions only split and recombine the two
  16-bit halves of that pattern, so the bit-level embedding is exact
  (Python's widening of a finite float32 to a float64 is lossless).
* Quantities on which the code performs only comparisons, negation and
  exact selections (the per-axis velocity clamp) are modelled in an
  arbitrary linear ordered field, instantiated at `ℚ`; every IEEE float
  is such a rational and all the operations involved are exact.
* The planner divides and takes square roots, so it is modelled over `ℝ`
  (exact real arithmetic).
* The emulator's motion task is modelled as a pure step function on an
  explicit state; the word registers it reads are part of the state and
  the float registers are carried by their decoded values.
-/

namespace MiniMBE

/-- Error taxonomy of the protocol stack. -/
inductive CtrlError where
  | invalidLength
  | velocityOutOfRange
  | notConnected
  | transportError
deriving DecidableEq, Repr

/- ------------------------------------------------------------------
   Register codec (bit level).
   `controllers/smcd14_controller.py`:
     _float_to_regs: pack '>f', unpack '>HH' into (hi, lo), return [lo, hi]
     _regs_to_float: require two regs, pack '>HH' (regs[1], regs[0]), unpack '>f'
   `smcd14_emulator.py`:
     _float_to_regs: same unpack into (hi, lo) but returns [hi, lo]
     _regs_to_float: hi, lo = values; pack '>HH' (hi, lo), unpack '>f'
   On the bit pattern `bits`, the big-endian halves are
   hi = bits / 2^16 and lo = bits % 2^16.
   ------------------------------------------------------------------ -/

def client_float_to_regs (bits : Nat) : List Nat :=
  [bits % 65536, bits / 65536]

def client_regs_to_float (regs : List Nat) : Except CtrlError Nat :=
  match regs with
  | [r0, r1] => .ok (r1 * 65536 + r0)
  | _ => .error .invalidLength

def emu_float_to_regs (bits : Nat) : List Nat :=
  [bits / 65536, bits % 65536]

def emu_regs_to_float (values : List Nat) : Option Nat :=
  match values with
  | [hi, lo] => some (hi * 65536 + lo)
  | _ => none

/-- Bit pattern of the float32 `1.0` (0x3F800000); its low half-word is
`0x0000` and its high half-word is `0x3F80` = 16256. -/
def oneF32 : Nat := 1065353216

/- ------------------------------------------------------------------
   Physical limits and the per-axis velocity clamp
   (`controllers/smcd14_controller.py`, `_adjust_axis_velocity`).
   ------------------------------------------------------------------ -/

def MIN_AXIS_VELOCITY (α : Type) [LinearOrderedField α] : α := 1 / 10000

def MAX_AXIS_VELOCITY (α : Type) [LinearOrderedField α] : α := 1

def VELOCITY_THRESHOLD (α : Type) [LinearOrderedField α] : α := 5 / 100000

def _adjust_axis_velocity {α : Type} [LinearOrderedField α] (v : α) : α :=
  if |v| < VELOCITY_THRESHOLD α then 0
  else if |v| < MIN_AXIS_VELOCITY α then
    (if 0 ≤ v then MIN_AXIS_VELOCITY α else -MIN_AXIS_VELOCITY α)
  else if |v| > MAX_AXIS_VELOCITY α then
    (if 0 ≤ v then MAX_AXIS_VELOCITY α else -MAX_AXIS_VELOCITY α)
  else v

/- ------------------------------------------------------------------
   Client controller (`controllers/smcd14_controller.py`).
   The Modbus TCP transport is abstracted as record of oracles telling
   whether each write succeeds and what each read returns (`none` models
   `res.isError()`).  `connect` stores a client object regardless of
   whether the TCP connection succeeded, exactly as the Python
   constructor-then-connect sequence does; `_check` (inlined in the
   `match` on `client` below) only tests that a client object exists.
   ------------------------------------------------------------------ -/

def MOVE_TYPE_ADDR : Nat := 0
def TARGET_POS_ADDR : Nat := 2
def TARGET_VEL_ADDR : Nat := 8
def MOTOR_ON_ADDR : Nat := 14
def START_REQ_ADDR : Nat := 15
def STOP_REQ_ADDR : Nat := 16
def STATUS_ADDR : Nat := 17
def ACTUAL_POS_ADDR : Nat := 18
def ERROR_CODE_ADDR : Nat := 20
def CLEAR_REQ_ADDR : Nat := 22
def BACKLASH_ADDR : Nat := 72

structure Transport where
  writeRegSucc : Nat → Nat → Bool
  writeRegsSucc : Nat → List Nat → Bool
  readRegsRes : Nat → Nat → Option (List Nat)

structure SMCD14Controller where
  client : Option Transport

/-- `SMCD14Controller.connect`: a client object is created and stored
before its TCP connect is attempted, so `client` is set even when the
returned success flag is `false`. -/
def connect (t : Transport) (connectSucceeds : Bool) :
    SMCD14Controller × Bool :=
  (⟨some t⟩, connectSucceeds)

/-- `SMCD14Controller.disconnect`. -/
def disconnect (_c : SMCD14Controller) : SMCD14Controller := ⟨none⟩

def _write_register (c : SMCD14Controller) (addr value : Nat) :
    Except CtrlError Unit :=
  match c.client with
  | none => .error .notConnected
  | some t =>
    if t.writeRegSucc addr value then .ok () else .error .transportError

def _write_registers (c : SMCD14Controller) (addr : Nat)
    (values : List Nat) : Except CtrlError Unit :=
  match c.client with
  | none => .error .notConnected
  | some t =>
    if t.writeRegsSucc addr values then .ok () else .error .transportError

def _read_registers (c : SMCD14Controller) (addr count : Nat) :
    Except CtrlError (List Nat) :=
  match c.client with
  | none => .error .notConnected
  | some t =>
    match t.readRegsRes addr count with
    | none => .error .transportError
    | some regs => .ok regs

def motor_on (c : SMCD14Controller) : Except CtrlError Unit :=
  _write_register c MOTOR_ON_ADDR 1

def motor_off (c : SMCD14Controller) : Except CtrlError Unit :=
  _write_register c MOTOR_ON_ADDR 0

/-- `move_absolute(position, velocity)`; the two floats are carried by
their bit patterns. -/
def move_absolute (c : SMCD14Controller) (positionBits velocityBits : Nat) :
    Except CtrlError Unit := do
  _write_register c MOVE_TYPE_ADDR 1
  _write_registers c TARGET_POS_ADDR (client_float_to_regs positionBits)
  _write_registers c TARGET_VEL_ADDR (client_float_to_regs velocityBits)
  _write_register c START_REQ_ADDR 1

def move_relative (c : SMCD14Controller) (distanceBits velocityBits : Nat) :
    Except CtrlError Unit := do
  _write_register c MOVE_TYPE_ADDR 2
  _write_registers c TARGET_POS_ADDR (client_float_to_regs distanceBits)
  _write_registers c TARGET_VEL_ADDR (client_float_to_regs velocityBits)
  _write_register c START_REQ_ADDR 1

def emergency_stop (c : SMCD14Controller) : Except CtrlError Unit :=
  _write_register c STOP_REQ_ADDR 1

/-- `clear_error` pulses the clear-request register (the `time.sleep`
between the two writes has no register-level effect). -/
def clear_error (c : SMCD14Controller) : Except CtrlError Unit := do
  _write_register c CLEAR_REQ_ADDR 1
  _write_register c CLEAR_REQ_ADDR 0

def read_position (c : SMCD14Controller) : Except CtrlError Nat := do
  let regs ← _read_registers c ACTUAL_POS_ADDR 2
  client_regs_to_float regs

def read_error_code (c : SMCD14Controller) : Except CtrlError Nat := do
  let regs ← _read_registers c ERROR_CODE_ADDR 1
  pure (regs.headD 0)

def set_backlash (c : SMCD14Controller) (valueBits : Nat) :
    Except CtrlError Unit :=
  _write_registers c BACKLASH_ADDR (client_float_to_regs valueBits)

def get_backlash (c : SMCD14Controller) : Except CtrlError Nat := do
  let regs ← _read_registers c BACKLASH_ADDR 2
  client_regs_to_float regs

/-- `in_position` tests bit 4 of the status word. -/
def in_position (c : SMCD14Controller) : Except CtrlError Bool := do
  let regs ← _read_registers c STATUS_ADDR 1
  pure (Nat.testBit (regs.headD 0) 4)

/- ------------------------------------------------------------------
   Emulator motion task (`smcd14_emulator.py`, `_motion_task`).
   One loop iteration = one tick.  The word registers the task reads
   (start-request, stop-request) and the one it never touches (status)
   are fields of the state; the float registers (target, velocity,
   actual position) are carried by their decoded values.  `moving` and
   `prev_start` are the task's local variables.
   ------------------------------------------------------------------ -/

structure EmuState where
  start_req : Nat
  stop_req : Nat
  target : ℚ
  velocity : ℚ
  pos : ℚ
  status : Nat
  moving : Bool
  prev_start : Nat
deriving DecidableEq, Repr

/-- The two `if`s at the top of the loop body: stop clears `moving`,
then a rising edge of start sets it. -/
def updateMoving (moving : Bool) (prevStart start stop : Nat) : Bool :=
  let m := if moving = true ∧ stop ≠ 0 then false else moving
  if start ≠ 0 ∧ prevStart = 0 then true else m

/-- One tick of `_motion_task` with tick period `period`. -/
def motionStep (period : ℚ) (s : EmuState) : EmuState :=
  let start := s.start_req
  let stop := s.stop_req
  let moving := updateMoving s.moving s.prev_start start stop
  if moving then
    let step := s.velocity * period
    let diff := s.target - s.pos
    if |diff| ≤ step then
      { s with pos := s.target, moving := false, prev_start := start }
    else
      { s with pos := s.pos + (if diff > 0 then step else -step),
               moving := true, prev_start := start }
  else
    { s with moving := false, prev_start := start }

/-- Overwrite the two request registers with values written by a remote
client between ticks. -/
def setInputs (i : Nat × Nat) (s : EmuState) : EmuState :=
  { s with start_req := i.1, stop_req := i.2 }

/-- Run `n` ticks; before tick `k` the request registers hold
`sched k`. -/
def runSched (period : ℚ) (sched : Nat → Nat × Nat) (s : EmuState) :
    Nat → EmuState
  | 0 => s
  | n + 1 => motionStep period (setInputs (sched n) (runSched period sched s n))

/-- Initial state of the section-8 scenario: position 0, target 10,
velocity 1, all request registers and the status register 0. -/
def scenarioInit : EmuState :=
  { start_req := 0, stop_req := 0, target := 10, velocity := 1,
    pos := 0, status := 0, moving := false, prev_start := 0 }

/-- Request schedule of the move scenario: start-request held at 1. -/
def moveSched : Nat → Nat × Nat := fun _ => (1, 0)

/-- Request schedule of the stop scenario: start-request held at 1,
stop-request asserted from tick 10 on. -/
def stopSched : Nat → Nat × Nat := fun n => (1, if 10 ≤ n then 1 else 0)

/- ------------------------------------------------------------------
   Velocity planner (`controllers/smcd14_controller.py`,
   `validate_velocity` and `calculate_velocity_components`),
   modelled in exact real arithmetic (`** 0.5` on a nonnegative
   argument is the square root).
   ------------------------------------------------------------------ -/

/-- `validate_velocity`: raising `ValueError` is modelled as returning
`velocityOutOfRange`. -/
noncomputable def validate_velocity (velocity : ℝ) : Except CtrlError Unit :=
  if velocity < MIN_AXIS_VELOCITY ℝ then .error .velocityOutOfRange
  else if velocity > Real.sqrt 3 * MAX_AXIS_VELOCITY ℝ then
    .error .velocityOutOfRange
  else .ok ()

noncomputable def calculate_velocity_components
    (start_pos end_pos : ℝ × ℝ × ℝ) (total_velocity : ℝ) :
    Except CtrlError (ℝ × ℝ × ℝ) := do
  validate_velocity total_velocity
  let dx := end_pos.1 - start_pos.1
  let dy := end_pos.2.1 - start_pos.2.1
  let dz := end_pos.2.2 - start_pos.2.2
  let distance := Real.sqrt (dx ^ 2 + dy ^ 2 + dz ^ 2)
  if distance = 0 then
    pure (0, 0, 0)
  else
    let ux := dx / distance
    let uy := dy / distance
    let uz := dz / distance
    let vx := _adjust_axis_velocity (ux * total_velocity)
    let vy := _adjust_axis_velocity (uy * total_velocity)
    let vz := _adjust_axis_velocity (uz * total_velocity)
    let actual := Real.sqrt (vx ^ 2 + vy ^ 2 + vz ^ 2)
    if 0 < actual ∧ actual < total_velocity then
      let scale := total_velocity / actual
      pure (_adjust_axis_velocity (vx * scale),
            _adjust_axis_velocity (vy * scale),
            _adjust_axis_velocity (vz * scale))
    else
      pure (vx, vy, vz)

/- ------------------------------------------------------------------
   Helper lemmas about the per-axis clamp.
   ------------------------------------------------------------------ -/

lemma adj_small {α : Type} [LinearOrderedField α] {v : α}
    (h : |v| < VELOCITY_THRESHOLD α) : _adjust_axis_velocity v = 0 := by
  unfold _adjust_axis_velocity
  rw [if_pos h]

lemma adj_low {α : Type} [LinearOrderedField α] {v : α}
    (h1 : VELOCITY_THRESHOLD α ≤ |v|) (h2 : |v| < MIN_AXIS_VELOCITY α) :
    _adjust_axis_velocity v =
      (if 0 ≤ v then MIN_AXIS_VELOCITY α else -MIN_AXIS_VELOCITY α) := by
  unfold _adjust_axis_velocity
  rw [if_neg (not_lt.mpr h1), if_pos h2]

lemma adj_high {α : Type} [LinearOrderedField α] {v : α}
    (h : MAX_AXIS_VELOCITY α < |v|) :
    _adjust_axis_velocity v =
      (if 0 ≤ v then MAX_AXIS_VELOCITY α else -MAX_AXIS_VELOCITY α) := by
  unfold _adjust_axis_velocity
  have hvt : ¬ |v| < VELOCITY_THRESHOLD α := by
    simp only [VELOCITY_THRESHOLD, MAX_AXIS_VELOCITY] at *
    push_neg
    nlinarith
  have hmin : ¬ |v| < MIN_AXIS_VELOCITY α := by
    simp only [MIN_AXIS_VELOCITY, MAX_AXIS_VELOCITY] at *
    push_neg
    nlinarith
  rw [if_neg hvt, if_neg hmin, if_pos h]

lemma adj_pass {α : Type} [LinearOrderedField α] {v : α}
    (h1 : MIN_AXIS_VELOCITY α ≤ |v|) (h2 : |v| ≤ MAX_AXIS_VELOCITY α) :
    _adjust_axis_velocity v = v := by
  unfold _adjust_axis_velocity
  have hvt : ¬ |v| < VELOCITY_THRESHOLD α := by
    simp only [VELOCITY_THRESHOLD, MIN_AXIS_VELOCITY] at *
    push_neg
    nlinarith
  rw [if_neg hvt, if_neg (not_lt.mpr h1), if_neg (not_lt.mpr h2)]

/- ------------------------------------------------------------------
   Claims about the codec.
   ------------------------------------------------------------------ -/

/-- C1: the claim that both sides encode a float as
[low half-word, high half-word] fails on the code: at the float32 `1.0`
(bits 0x3F800000, low half 0x0000, high half 0x3F80) the client encoder
does produce [low, high] = [0, 16256], but the emulator encoder produces
[high, low] = [16256, 0], so the two sides disagree on the wire layout. -/
theorem emulator_word_order_reversed :
    client_float_to_regs oneF32 = [0, 16256] ∧
    emu_float_to_regs oneF32 = [16256, 0] ∧
    emu_float_to_regs oneF32 ≠ client_float_to_regs oneF32 := by
  decide

/-- C4: for every 32-bit pattern, each side's decoder inverts its own
encoder bit-for-bit (finiteness of the float is not even needed at the
bit level). -/
theorem codec_roundtrip (bits : Nat) (h : bits < 4294967296) :
    client_regs_to_float (client_float_to_regs bits) = .ok bits ∧
    emu_regs_to_float (emu_float_to_regs bits) = some bits := by
  constructor <;>
    simp [client_regs_to_float, client_float_to_regs, emu_regs_to_float,
      emu_float_to_regs] <;>
    omega

/-- Witness for C4 at the bits of the float32 `1.0`. -/
theorem codec_roundtrip_witness :
    client_regs_to_float (client_float_to_regs oneF32) = .ok oneF32 ∧
    emu_regs_to_float (emu_float_to_regs oneF32) = some oneF32 :=
  codec_roundtrip oneF32 (by decide)

/- ------------------------------------------------------------------
   Claims about the per-axis clamp.
   ------------------------------------------------------------------ -/

/-- C5: the clamp preserves the sign of its argument and maps its
magnitude by the three-tier rule: below the negligible threshold 5e-5 it
returns exactly 0, between the threshold and the minimum axis speed 1e-4
it returns the signed minimum, above the maximum axis speed 1.0 it
returns the signed maximum, and in between it passes the value through
unchanged. -/
theorem clamp_three_tier (v : ℚ) :
    (|v| < VELOCITY_THRESHOLD ℚ → _adjust_axis_velocity v = 0) ∧
    (VELOCITY_THRESHOLD ℚ ≤ |v| → |v| < MIN_AXIS_VELOCITY ℚ →
      _adjust_axis_velocity v =
        (if 0 ≤ v then MIN_AXIS_VELOCITY ℚ else -MIN_AXIS_VELOCITY ℚ)) ∧
    (MAX_AXIS_VELOCITY ℚ < |v| →
      _adjust_axis_velocity v =
        (if 0 ≤ v then MAX_AXIS_VELOCITY ℚ else -MAX_AXIS_VELOCITY ℚ)) ∧
    (MIN_AXIS_VELOCITY ℚ ≤ |v| → |v| ≤ MAX_AXIS_VELOCITY ℚ →
      _adjust_axis_velocity v = v) ∧
    (0 ≤ v → 0 ≤ _adjust_axis_velocity v) ∧
    (v ≤ 0 → _adjust_axis_velocity v ≤ 0) := by
  refine ⟨fun h => adj_small h, fun h1 h2 => adj_low h1 h2,
    fun h => adj_high h, fun h1 h2 => adj_pass h1 h2, ?_, ?_⟩
  · intro hv
    rcases lt_or_le |v| (VELOCITY_THRESHOLD ℚ) with h | h
    · rw [adj_small h]
    · rcases lt_or_le |v| (MIN_AXIS_VELOCITY ℚ) with h2 | h2
      · rw [adj_low h h2, if_pos hv]
        norm_num [MIN_AXIS_VELOCITY]
      · rcases lt_or_le (MAX_AXIS_VELOCITY ℚ) |v| with h3 | h3
        · rw [adj_high h3, if_pos hv]
          norm_num [MAX_AXIS_VELOCITY]
        · rw [adj_pass h2 h3]
          exact hv
  · intro hv
    rcases lt_or_le |v| (VELOCITY_THRESHOLD ℚ) with h | h
    · rw [adj_small h]
    · have hvn : ¬ 0 ≤ v := by
        intro h0
        rw [le_antisymm hv h0] at h
        norm_num [VELOCITY_THRESHOLD] at h
      rcases lt_or_le |v| (MIN_AXIS_VELOCITY ℚ) with h2 | h2
      · rw [adj_low h h2, if_neg hvn]
        norm_num [MIN_AXIS_VELOCITY]
      · rcases lt_or_le (MAX_AXIS_VELOCITY ℚ) |v| with h3 | h3
        · rw [adj_high h3, if_neg hvn]
          norm_num [MAX_AXIS_VELOCITY]
        · rw [adj_pass h2 h3]
          exact hv

/-- Witness for C5: one concrete input per tier. -/
theorem clamp_three_tier_witness :
    _adjust_axis_velocity (2 : ℚ) = 1 ∧
    _adjust_axis_velocity ((3 : ℚ) / 100000) = 0 ∧
    _adjust_axis_velocity (-(7 : ℚ) / 100000) = -(1 / 10000) ∧
    _adjust_axis_velocity ((1 : ℚ) / 2) = 1 / 2 := by
  refine ⟨?_, ?_, ?_, ?_⟩
  · have h := (clamp_three_tier 2).2.2.1
      (by norm_num [MAX_AXIS_VELOCITY])
    rw [h]
    norm_num [MAX_AXIS_VELOCITY]
  · exact (clamp_three_tier (3 / 100000)).1
      (by rw [abs_of_nonneg (by norm_num : (0 : ℚ) ≤ 3 / 100000)]
          norm_num [VELOCITY_THRESHOLD])
  · have h := ((clamp_three_tier (-(7 : ℚ) / 100000)).2.1)
      (by rw [abs_of_nonpos (by norm_num)]; norm_num [VELOCITY_THRESHOLD])
      (by rw [abs_of_nonpos (by norm_num)]; norm_num [MIN_AXIS_VELOCITY])
    rw [h, if_neg (by norm_num)]
    norm_num [MIN_AXIS_VELOCITY]
  · exact (clamp_three_tier (1 / 2)).2.2.2.1
      (by rw [abs_of_nonneg (by norm_num : (0 : ℚ) ≤ 1 / 2)]
          norm_num [MIN_AXIS_VELOCITY])
      (by rw [abs_of_nonneg (by norm_num : (0 : ℚ) ≤ 1 / 2)]
          norm_num [MAX_AXIS_VELOCITY])

/-- C9: the per-axis clamp is idempotent on every rational (hence on
every float value), so the re-application of the clamp after the
renormalization pass never moves an already-clamped component outside
the allowed set. -/
theorem clamp_idempotent (v : ℚ) :
    _adjust_axis_velocity (_adjust_axis_velocity v) =
      _adjust_axis_velocity v := by
  rcases lt_or_le |v| (VELOCITY_THRESHOLD ℚ) with h | h
  · rw [adj_small h, adj_small (by norm_num [VELOCITY_THRESHOLD])]
  · rcases lt_or_le |v| (MIN_AXIS_VELOCITY ℚ) with h2 | h2
    · rw [adj_low h h2]
      split_ifs <;>
        exact adj_pass
          (by norm_num [MIN_AXIS_VELOCITY, abs_of_nonneg, abs_neg])
          (by norm_num [MIN_AXIS_VELOCITY, MAX_AXIS_VELOCITY,
            abs_of_nonneg, abs_neg])
    · rcases lt_or_le (MAX_AXIS_VELOCITY ℚ) |v| with h3 | h3
      · rw [adj_high h3]
        split_ifs <;>
          exact adj_pass
            (by norm_num [MIN_AXIS_VELOCITY, MAX_AXIS_VELOCITY,
              abs_of_nonneg, abs_neg])
            (by norm_num [MAX_AXIS_VELOCITY, abs_of_nonneg, abs_neg])
      · rw [adj_pass h2 h3, adj_pass h2 h3]

/- ------------------------------------------------------------------
   Claims about the controller's connection check.
   ------------------------------------------------------------------ -/

lemma except_error_bind {ε α β : Type} (e : ε) (f : α → Except ε β) :
    (Except.error e >>= f) = Except.error e := rfl

/-- C3 (amended): every register-I/O operation fails with
`NotConnected` when called while no client object exists, i.e. before
any `connect` call (or after `disconnect`); a `connect` attempt that
reported failure still installs the client object, so after it the
check no longer trips (see the counterexample). -/
theorem ops_notConnected_without_client (c : SMCD14Controller)
    (h : c.client = none) (a b : Nat) :
    motor_on c = .error .notConnected ∧
    motor_off c = .error .notConnected ∧
    move_absolute c a b = .error .notConnected ∧
    move_relative c a b = .error .notConnected ∧
    emergency_stop c = .error .notConnected ∧
    clear_error c = .error .notConnected ∧
    read_position c = .error .notConnected ∧
    read_error_code c = .error .notConnected ∧
    get_backlash c = .error .notConnected ∧
    set_backlash c a = .error .notConnected ∧
    in_position c = .error .notConnected := by
  refine ⟨?_, ?_, ?_, ?_, ?_, ?_, ?_, ?_, ?_, ?_, ?_⟩ <;>
    simp [motor_on, motor_off, move_absolute, move_relative,
      emergency_stop, clear_error, read_position, read_error_code,
      get_backlash, set_backlash, in_position, _write_register,
      _write_registers, _read_registers, h, except_error_bind]

/-- Witness for C3 (amended) on a freshly constructed controller. -/
theorem ops_notConnected_without_client_witness :
    motor_on ⟨none⟩ = .error .notConnected ∧
    motor_off ⟨none⟩ = .error .notConnected ∧
    move_absolute ⟨none⟩ 0 0 = .error .notConnected ∧
    move_relative ⟨none⟩ 0 0 = .error .notConnected ∧
    emergency_stop ⟨none⟩ = .error .notConnected ∧
    clear_error ⟨none⟩ = .error .notConnected ∧
    read_position ⟨none⟩ = .error .notConnected ∧
    read_error_code ⟨none⟩ = .error .notConnected ∧
    get_backlash ⟨none⟩ = .error .notConnected ∧
    set_backlash ⟨none⟩ 0 = .error .notConnected ∧
    in_position ⟨none⟩ = .error .notConnected :=
  ops_notConnected_without_client ⟨none⟩ rfl 0 0

/-- Transport on which every write and read reports failure, as a TCP
client whose `connect` returned `False` would. -/
def failTransport : Transport :=
  ⟨fun _ _ => false, fun _ _ => false, fun _ _ => none⟩

/-- C3 counterexample: after a `connect` that returned failure the
client object is installed anyway, so `motor_on` does not fail with
`NotConnected` — it reaches the transport and reports
`TransportError` instead, refuting the claim's "still fails with
NotConnected when connect was attempted but returned failure". -/
theorem notConnected_after_failed_connect_refuted :
    motor_on (connect failTransport false).1 = .error .transportError ∧
    CtrlError.transportError ≠ CtrlError.notConnected :=
  ⟨rfl, by decide⟩

/- ------------------------------------------------------------------
   Claims about the emulator motion task.
   ------------------------------------------------------------------ -/

/-- A tick taken in the Moving state with more than one step left
advances the position by one signed step (here the positive case). -/
lemma motionStep_advance (period : ℚ) (s : EmuState)
    (hmv : updateMoving s.moving s.prev_start s.start_req s.stop_req = true)
    (hstep : 0 ≤ s.velocity * period)
    (hfar : s.velocity * period < s.target - s.pos) :
    motionStep period s =
      { s with pos := s.pos + s.velocity * period, moving := true,
               prev_start := s.start_req } := by
  have hd : s.target - s.pos > 0 := lt_of_le_of_lt hstep hfar
  have habs : ¬ |s.target - s.pos| ≤ s.velocity * period := by
    rw [abs_of_pos hd]
    exact not_le.mpr hfar
  simp only [motionStep, hmv, if_true, if_neg habs, if_pos hd]

/-- A tick taken in the Moving state with at most one step left snaps
the position exactly to the target and leaves Moving. -/
lemma motionStep_snap (period : ℚ) (s : EmuState)
    (hmv : updateMoving s.moving s.prev_start s.start_req s.stop_req = true)
    (hnear : |s.target - s.pos| ≤ s.velocity * period) :
    motionStep period s =
      { s with pos := s.target, moving := false,
               prev_start := s.start_req } := by
  simp only [motionStep, hmv, if_true, if_pos hnear]

/-- Trajectory of the section-8 setup under any request schedule that
holds start-request at 1 and stop-request at 0 for the first `n + 1`
ticks: after `n + 1` ticks (`n ≤ 98`) the axis is Moving at position
`(n + 1) / 10`. -/
lemma scenario_traj (sched : Nat → Nat × Nat) :
    ∀ n : Nat, (∀ k, k ≤ n → sched k = (1, 0)) → n ≤ 98 →
      runSched (1 / 10) sched scenarioInit (n + 1) =
        { start_req := 1, stop_req := 0, target := 10, velocity := 1,
          pos := ((n : ℚ) + 1) / 10, status := 0, moving := true,
          prev_start := 1 } := by
  intro n
  induction n with
  | zero =>
    intro hsched _
    have h0 : sched 0 = (1, 0) := hsched 0 (le_refl 0)
    have he : runSched (1 / 10) sched scenarioInit 1 =
        motionStep (1 / 10) (setInputs (sched 0) scenarioInit) := rfl
    rw [he, h0]
    rw [motionStep_advance (1 / 10) (setInputs (1, 0) scenarioInit)
      (by decide)
      (by simp only [setInputs, scenarioInit]; norm_num)
      (by simp only [setInputs, scenarioInit]; norm_num)]
    simp only [setInputs, scenarioInit]
    norm_num
  | succ k ih =>
    intro hsched hn
    have hps := ih (fun m hm => hsched m (le_trans hm (Nat.le_succ k)))
      (by omega)
    have hkq : (k : ℚ) ≤ 97 := by
      exact_mod_cast (by omega : k ≤ 97)
    have he : runSched (1 / 10) sched scenarioInit (k + 1 + 1) =
        motionStep (1 / 10) (setInputs (sched (k + 1))
          (runSched (1 / 10) sched scenarioInit (k + 1))) := rfl
    rw [he, hps, hsched (k + 1) (le_refl _)]
    rw [motionStep_advance (1 / 10) (setInputs (1, 0)
        { start_req := 1, stop_req := 0, target := 10, velocity := 1,
          pos := ((k : ℚ) + 1) / 10, status := 0, moving := true,
          prev_start := 1 })
      (by simp [setInputs, updateMoving])
      (by simp only [setInputs]; norm_num)
      (by simp only [setInputs]; linarith)]
    simp only [setInputs, EmuState.mk.injEq, and_true, true_and]
    push_cast
    ring

lemma move_scenario_state_99 :
    runSched (1 / 10) moveSched scenarioInit 99 =
      { start_req := 1, stop_req := 0, target := 10, velocity := 1,
        pos := 99 / 10, status := 0, moving := true, prev_start := 1 } := by
  have h := scenario_traj moveSched 98 (fun _ _ => rfl) (by omega)
  rw [show (99 : Nat) = 98 + 1 from rfl, h]
  norm_num

lemma move_scenario_state_100 :
    runSched (1 / 10) moveSched scenarioInit 100 =
      { start_req := 1, stop_req := 0, target := 10, velocity := 1,
        pos := 10, status := 0, moving := false, prev_start := 1 } := by
  have h99 := move_scenario_state_99
  show motionStep (1 / 10) (setInputs (moveSched 99)
    (runSched (1 / 10) moveSched scenarioInit 99)) = _
  rw [h99]
  rw [motionStep_snap (1 / 10) _
    (by decide)
    (by simp only [setInputs]
        rw [show (10 : ℚ) - 99 / 10 = 1 / 10 by norm_num,
          abs_of_nonneg (by norm_num : (0 : ℚ) ≤ 1 / 10)]
        norm_num)]
  simp only [setInputs, moveSched]

lemma stop_scenario_state_10 :
    runSched (1 / 10) stopSched scenarioInit 10 =
      { start_req := 1, stop_req := 0, target := 10, velocity := 1,
        pos := 1, status := 0, moving := true, prev_start := 1 } := by
  have h := scenario_traj stopSched 9
    (fun k hk => by simp only [stopSched, if_neg (by omega : ¬ 10 ≤ k)])
    (by omega)
  rw [show (10 : Nat) = 9 + 1 from rfl, h]
  norm_num

lemma stop_scenario_state_11 :
    runSched (1 / 10) stopSched scenarioInit 11 =
      { start_req := 1, stop_req := 1, target := 10, velocity := 1,
        pos := 1, status := 0, moving := false, prev_start := 1 } := by
  have h10 := stop_scenario_state_10
  show motionStep (1 / 10) (setInputs (stopSched 10)
    (runSched (1 / 10) stopSched scenarioInit 10)) = _
  rw [h10, show stopSched 10 = (1, 1) from rfl]
  simp [motionStep, setInputs, updateMoving]

/-- A tick taken from a halted state with both request registers held
at 1 changes nothing: the start edge was already consumed. -/
lemma steady_step (p : ℚ) (t : EmuState) (hm : t.moving = false)
    (hp : t.prev_start = 1) :
    (motionStep p (setInputs (1, 1) t)).pos = t.pos ∧
    (motionStep p (setInputs (1, 1) t)).moving = false ∧
    (motionStep p (setInputs (1, 1) t)).prev_start = 1 := by
  simp [motionStep, setInputs, updateMoving, hm, hp]

/-- Once the stop scenario has halted, every further tick leaves the
position, the moving flag and the remembered start sample unchanged. -/
lemma stop_scenario_steady (n : Nat) :
    (runSched (1 / 10) stopSched scenarioInit (11 + n)).pos = 1 ∧
    (runSched (1 / 10) stopSched scenarioInit (11 + n)).moving = false ∧
    (runSched (1 / 10) stopSched scenarioInit (11 + n)).prev_start = 1 := by
  induction n with
  | zero =>
    rw [show 11 + 0 = 11 from rfl, stop_scenario_state_11]
    exact ⟨rfl, rfl, rfl⟩
  | succ k ih =>
    rw [show 11 + (k + 1) = (11 + k) + 1 by omega]
    rcases ih with ⟨h1, h2, h3⟩
    have hs : stopSched (11 + k) = (1, 1) := by
      simp only [stopSched, if_pos (by omega : 10 ≤ 11 + k)]
    rcases steady_step (1 / 10)
      (runSched (1 / 10) stopSched scenarioInit (11 + k)) h2 h3 with
      ⟨p1, p2, p3⟩
    simp only [runSched, hs]
    exact ⟨by rw [p1, h1], p2, p3⟩

/-- C6: whenever the task is in the Moving state on a tick, it either
snaps the position exactly to the target and leaves Moving (when the
remaining distance is at most one tick's step `velocity * period`) or
advances the position by one signed step; consequently the section-8
scenario (start 0, target 10, velocity 1, period 1/10, start-request
asserted) reaches exactly 10 at tick 100 and not before. -/
theorem moving_advance_and_scenario :
    (∀ (period : ℚ) (s : EmuState),
      updateMoving s.moving s.prev_start s.start_req s.stop_req = true →
      |s.target - s.pos| ≤ s.velocity * period →
      (motionStep period s).pos = s.target ∧
      (motionStep period s).moving = false) ∧
    (∀ (period : ℚ) (s : EmuState),
      updateMoving s.moving s.prev_start s.start_req s.stop_req = true →
      s.velocity * period < |s.target - s.pos| →
      (motionStep period s).pos =
        s.pos + (if s.target - s.pos > 0 then s.velocity * period
                 else -(s.velocity * period)) ∧
      (motionStep period s).moving = true) ∧
    ((runSched (1 / 10) moveSched scenarioInit 100).pos = 10 ∧
     (runSched (1 / 10) moveSched scenarioInit 100).moving = false ∧
     (runSched (1 / 10) moveSched scenarioInit 99).pos ≠ 10) := by
  refine ⟨?_, ?_, ?_⟩
  · intro period s h1 h2
    simp only [motionStep, h1, if_true, if_pos h2]
    constructor <;> trivial
  · intro period s h1 h2
    simp only [motionStep, h1, if_true, if_neg (not_le.mpr h2)]
    constructor <;> trivial
  · rw [move_scenario_state_100, move_scenario_state_99]
    refine ⟨rfl, rfl, by norm_num⟩

/-- Witness for C6 on the state one tick before the scenario finishes:
the remaining distance 1/10 equals one step, so the position snaps to
the target and the axis leaves Moving. -/
theorem moving_advance_and_scenario_witness :
    (motionStep (1 / 10)
      { start_req := 1, stop_req := 0, target := 10, velocity := 1,
        pos := 99 / 10, status := 0, moving := true,
        prev_start := 1 }).pos = 10 ∧
    (motionStep (1 / 10)
      { start_req := 1, stop_req := 0, target := 10, velocity := 1,
        pos := 99 / 10, status := 0, moving := true,
        prev_start := 1 }).moving = false :=
  moving_advance_and_scenario.1 (1 / 10)
    { start_req := 1, stop_req := 0, target := 10, velocity := 1,
      pos := 99 / 10, status := 0, moving := true, prev_start := 1 }
    rfl
    (by rw [show (10 : ℚ) - 99 / 10 = 1 / 10 by norm_num]
        rw [abs_of_nonneg (by norm_num : (0 : ℚ) ≤ 1 / 10)]
        norm_num)

/-- C7: when stop-request reads as asserted on a tick while the axis is
Moving (and no simultaneous start edge overrides it), the axis exits
Moving on that tick with the position unchanged; a non-Moving axis
without a start edge also stays put, so in the stop scenario
(stop-request asserted from tick 10 on, start-request held at 1) the
position equals its tick-10 value 1 on every tick from 10 on and the
axis is not Moving from tick 11 on. -/
theorem stop_halts_and_scenario :
    (∀ (period : ℚ) (s : EmuState),
      s.moving = true → s.stop_req ≠ 0 →
      ¬(s.start_req ≠ 0 ∧ s.prev_start = 0) →
      (motionStep period s).moving = false ∧
      (motionStep period s).pos = s.pos) ∧
    (∀ (period : ℚ) (s : EmuState),
      s.moving = false → ¬(s.start_req ≠ 0 ∧ s.prev_start = 0) →
      (motionStep period s).moving = false ∧
      (motionStep period s).pos = s.pos) ∧
    (∀ n : Nat,
      (runSched (1 / 10) stopSched scenarioInit (10 + n)).pos = 1 ∧
      (runSched (1 / 10) stopSched scenarioInit (11 + n)).moving = false) := by
  refine ⟨?_, ?_, ?_⟩
  · intro period s h1 h2 h3
    have hm : updateMoving s.moving s.prev_start s.start_req s.stop_req
        = false := by
      simp [updateMoving, h1, h2, h3]
    simp [motionStep, hm]
  · intro period s h1 h3
    have hm : updateMoving s.moving s.prev_start s.start_req s.stop_req
        = false := by
      simp [updateMoving, h1, h3]
    simp [motionStep, hm]
  · intro n
    constructor
    · match n with
      | 0 => rw [show 10 + 0 = 10 from rfl, stop_scenario_state_10]
      | Nat.succ k =>
        rw [show 10 + (k + 1) = 11 + k by omega]
        exact (stop_scenario_steady k).1
    · exact (stop_scenario_steady n).2.1

/-- Witness for C7 on the stop scenario's tick-10 state. -/
theorem stop_halts_and_scenario_witness :
    (motionStep (1 / 10)
      { start_req := 1, stop_req := 1, target := 10, velocity := 1,
        pos := 1, status := 0, moving := true,
        prev_start := 1 }).moving = false ∧
    (motionStep (1 / 10)
      { start_req := 1, stop_req := 1, target := 10, velocity := 1,
        pos := 1, status := 0, moving := true,
        prev_start := 1 }).pos = 1 :=
  stop_halts_and_scenario.1 (1 / 10)
    { start_req := 1, stop_req := 1, target := 10, velocity := 1,
      pos := 1, status := 0, moving := true, prev_start := 1 }
    rfl (by norm_num) (by norm_num)

/-- C2: the motion task never writes the status register — its value,
and in particular the in-position bit 4, survives every tick unchanged;
in the section-8 scenario the actual position reaches the target 10 at
tick 100 while bit 4 of the status register still reads 0, so the
in-position bit is NOT recomputed every tick as claimed. -/
theorem status_never_recomputed :
    (∀ (period : ℚ) (s : EmuState),
      (motionStep period s).status = s.status) ∧
    ((runSched (1 / 10) moveSched scenarioInit 100).pos =
      scenarioInit.target ∧
     Nat.testBit
       (runSched (1 / 10) moveSched scenarioInit 100).status 4 = false) := by
  refine ⟨?_, ?_⟩
  · intro period s
    cases hb : updateMoving s.moving s.prev_start s.start_req s.stop_req
    · simp [motionStep, hb]
    · simp only [motionStep, hb, if_true]
      split <;> rfl
  · rw [move_scenario_state_100]
    exact ⟨rfl, rfl⟩

/-- C10: with a nonnegative commanded velocity (and nonnegative tick
period) a tick never increases the distance between actual position and
target: the step direction follows the sign of the remaining
displacement. -/
theorem step_never_overshoots (period : ℚ) (s : EmuState)
    (hp : 0 ≤ period) (hv : 0 ≤ s.velocity) :
    (motionStep period s).target = s.target ∧
    |s.target - (motionStep period s).pos| ≤ |s.target - s.pos| := by
  have hstep : 0 ≤ s.velocity * period := mul_nonneg hv hp
  cases hb : updateMoving s.moving s.prev_start s.start_req s.stop_req with
  | false =>
    simp only [motionStep, hb, if_false, Bool.false_eq_true]
    exact ⟨trivial, le_refl _⟩
  | true =>
    simp only [motionStep, hb, if_true]
    by_cases hd : |s.target - s.pos| ≤ s.velocity * period
    · simp only [if_pos hd]
      refine ⟨trivial, ?_⟩
      simp only [sub_self, abs_zero]
      exact abs_nonneg _
    · simp only [if_neg hd]
      refine ⟨trivial, ?_⟩
      have hlt : s.velocity * period < |s.target - s.pos| := not_le.mp hd
      by_cases hdp : s.target - s.pos > 0
      · rw [if_pos hdp]
        rw [abs_of_pos hdp] at hlt ⊢
        rw [show s.target - (s.pos + s.velocity * period)
            = s.target - s.pos - s.velocity * period by ring]
        rw [abs_of_pos (by linarith)]
        linarith
      · rw [if_neg hdp]
        have hdp' : s.target - s.pos ≤ 0 := not_lt.mp hdp
        rw [abs_of_nonpos hdp'] at hlt ⊢
        rw [show s.target - (s.pos + -(s.velocity * period))
            = s.target - s.pos + s.velocity * period by ring]
        rw [abs_of_nonpos (by linarith)]
        linarith

/-- Witness for C10 at a state one step short of the target. -/
theorem step_never_overshoots_witness :
    (motionStep (1 / 10)
      { start_req := 1, stop_req := 0, target := 10, velocity := 1,
        pos := 5, status := 0, moving := true,
        prev_start := 1 }).target = 10 ∧
    |(10 : ℚ) - (motionStep (1 / 10)
      { start_req := 1, stop_req := 0, target := 10, velocity := 1,
        pos := 5, status := 0, moving := true,
        prev_start := 1 }).pos| ≤ |(10 : ℚ) - 5| :=
  step_never_overshoots (1 / 10)
    { start_req := 1, stop_req := 0, target := 10, velocity := 1,
      pos := 5, status := 0, moving := true, prev_start := 1 }
    (by norm_num) (by norm_num)

/- ------------------------------------------------------------------
   Claim about the planner's renormalization pass.
   ------------------------------------------------------------------ -/

lemma except_ok_bind {ε α β : Type} (a : α) (f : α → Except ε β) :
    (Except.ok a >>= f : Except ε β) = f a := rfl

/-- On a raw component that is either negligible or inside the per-axis
band, the clamp either zeroes it or passes it through. -/
lemma clamp_tier_cases {r : ℝ}
    (t : |r| < VELOCITY_THRESHOLD ℝ ∨
      (MIN_AXIS_VELOCITY ℝ ≤ |r| ∧ |r| ≤ MAX_AXIS_VELOCITY ℝ)) :
    (_adjust_axis_velocity r = 0 ∧ ¬ MIN_AXIS_VELOCITY ℝ ≤ |r|) ∨
    (_adjust_axis_velocity r = r ∧ MIN_AXIS_VELOCITY ℝ ≤ |r|) := by
  rcases t with h | ⟨h1, h2⟩
  · refine Or.inl ⟨adj_small h, not_le.mpr ?_⟩
    calc |r| < VELOCITY_THRESHOLD ℝ := h
      _ < MIN_AXIS_VELOCITY ℝ := by
          norm_num [VELOCITY_THRESHOLD, MIN_AXIS_VELOCITY]
  · exact Or.inr ⟨adj_pass h1 h2, h1⟩

/-- A clamp output rescaled by a factor `k ≥ 1` that keeps band members
under the per-axis maximum is a fixed point of the clamp. -/
lemma clamp_rescale_eq {r k : ℝ} (hk : 1 ≤ k)
    (hcase : (_adjust_axis_velocity r = 0 ∧ ¬ MIN_AXIS_VELOCITY ℝ ≤ |r|) ∨
             (_adjust_axis_velocity r = r ∧ MIN_AXIS_VELOCITY ℝ ≤ |r|))
    (hup : MIN_AXIS_VELOCITY ℝ ≤ |r| → |r| * k ≤ MAX_AXIS_VELOCITY ℝ) :
    _adjust_axis_velocity (_adjust_axis_velocity r * k) =
      _adjust_axis_velocity r * k := by
  rcases hcase with ⟨h0, _⟩ | ⟨hr, hm⟩
  · rw [h0, zero_mul]
    exact adj_small (by rw [abs_zero]; norm_num [VELOCITY_THRESHOLD])
  · rw [hr]
    have hknn : (0 : ℝ) ≤ k := le_trans zero_le_one hk
    have habs : |r * k| = |r| * k := by rw [abs_mul, abs_of_nonneg hknn]
    refine adj_pass ?_ ?_
    · rw [habs]
      calc MIN_AXIS_VELOCITY ℝ ≤ |r| := hm
        _ = |r| * 1 := (mul_one _).symm
        _ ≤ |r| * k := mul_le_mul_of_nonneg_left hk (abs_nonneg r)
    · rw [habs]
      exact hup hm

/-- C8: when the displacement is nonzero, the requested total speed `v`
is within the validated range, every raw per-axis component
`r_i = (d_i / distance) * v` is either negligible (it snaps to 0) or
inside the per-axis band, at least one component is in the band, and the
band components rescaled by `v / A` (`A` the norm after the first clamp)
stay under the per-axis maximum, then `calculate_velocity_components`
succeeds and the Euclidean norm of the returned vector equals the
requested total speed exactly (in exact real arithmetic; the single
rescale-then-reclamp pass recovers the magnitude lost to snapping). -/
theorem decompose_norm_preserved
    (sx sy sz ex ey ez v D rx ry rz A : ℝ)
    (hD : D = Real.sqrt ((ex - sx) ^ 2 + (ey - sy) ^ 2 + (ez - sz) ^ 2))
    (hDpos : 0 < D)
    (hrx : rx = (ex - sx) / D * v)
    (hry : ry = (ey - sy) / D * v)
    (hrz : rz = (ez - sz) / D * v)
    (hv1 : MIN_AXIS_VELOCITY ℝ ≤ v)
    (hv2 : v ≤ Real.sqrt 3 * MAX_AXIS_VELOCITY ℝ)
    (tx : |rx| < VELOCITY_THRESHOLD ℝ ∨
      (MIN_AXIS_VELOCITY ℝ ≤ |rx| ∧ |rx| ≤ MAX_AXIS_VELOCITY ℝ))
    (ty : |ry| < VELOCITY_THRESHOLD ℝ ∨
      (MIN_AXIS_VELOCITY ℝ ≤ |ry| ∧ |ry| ≤ MAX_AXIS_VELOCITY ℝ))
    (tz : |rz| < VELOCITY_THRESHOLD ℝ ∨
      (MIN_AXIS_VELOCITY ℝ ≤ |rz| ∧ |rz| ≤ MAX_AXIS_VELOCITY ℝ))
    (hA : A = Real.sqrt ((_adjust_axis_velocity rx) ^ 2 +
      (_adjust_axis_velocity ry) ^ 2 + (_adjust_axis_velocity rz) ^ 2))
    (hsome : MIN_AXIS_VELOCITY ℝ ≤ |rx| ∨ MIN_AXIS_VELOCITY ℝ ≤ |ry| ∨
      MIN_AXIS_VELOCITY ℝ ≤ |rz|)
    (hbx : MIN_AXIS_VELOCITY ℝ ≤ |rx| →
      |rx| * (v / A) ≤ MAX_AXIS_VELOCITY ℝ)
    (hby : MIN_AXIS_VELOCITY ℝ ≤ |ry| →
      |ry| * (v / A) ≤ MAX_AXIS_VELOCITY ℝ)
    (hbz : MIN_AXIS_VELOCITY ℝ ≤ |rz| →
      |rz| * (v / A) ≤ MAX_AXIS_VELOCITY ℝ) :
    ∃ wx wy wz,
      calculate_velocity_components (sx, sy, sz) (ex, ey, ez) v =
        .ok (wx, wy, wz) ∧
      Real.sqrt (wx ^ 2 + wy ^ 2 + wz ^ 2) = v := by
  have hDne : D ≠ 0 := ne_of_gt hDpos
  have hv0 : (0 : ℝ) < v :=
    lt_of_lt_of_le (by norm_num [MIN_AXIS_VELOCITY]) hv1
  have hval : validate_velocity v = Except.ok () := by
    unfold validate_velocity
    rw [if_neg (not_lt.mpr hv1), if_neg (not_lt.mpr hv2)]
  have hD2 : D ^ 2 = (ex - sx) ^ 2 + (ey - sy) ^ 2 + (ez - sz) ^ 2 := by
    rw [hD]
    exact Real.sq_sqrt (by positivity)
  have key1 : rx ^ 2 + ry ^ 2 + rz ^ 2 = v ^ 2 := by
    rw [hrx, hry, hrz]
    field_simp
    nlinarith [hD2]
  have casex := clamp_tier_cases tx
  have casey := clamp_tier_cases ty
  have casez := clamp_tier_cases tz
  have hx2 : (_adjust_axis_velocity rx) ^ 2 ≤ rx ^ 2 := by
    rcases casex with ⟨h0, _⟩ | ⟨hr, _⟩
    · rw [h0]
      nlinarith [sq_nonneg rx]
    · rw [hr]
  have hy2 : (_adjust_axis_velocity ry) ^ 2 ≤ ry ^ 2 := by
    rcases casey with ⟨h0, _⟩ | ⟨hr, _⟩
    · rw [h0]
      nlinarith [sq_nonneg ry]
    · rw [hr]
  have hz2 : (_adjust_axis_velocity rz) ^ 2 ≤ rz ^ 2 := by
    rcases casez with ⟨h0, _⟩ | ⟨hr, _⟩
    · rw [h0]
      nlinarith [sq_nonneg rz]
    · rw [hr]
  have hAle : A ≤ v := by
    rw [hA]
    calc Real.sqrt ((_adjust_axis_velocity rx) ^ 2 +
          (_adjust_axis_velocity ry) ^ 2 + (_adjust_axis_velocity rz) ^ 2)
        ≤ Real.sqrt (v ^ 2) := by
          apply Real.sqrt_le_sqrt
          rw [← key1]
          linarith
      _ = v := Real.sqrt_sq (le_of_lt hv0)
  have hApos : 0 < A := by
    have hsumpos : 0 < (_adjust_axis_velocity rx) ^ 2 +
        (_adjust_axis_velocity ry) ^ 2 + (_adjust_axis_velocity rz) ^ 2 := by
      rcases hsome with hm | hm | hm
      · have hcr : _adjust_axis_velocity rx = rx := by
          rcases casex with ⟨_, hn⟩ | ⟨hr, _⟩
          · exact absurd hm hn
          · exact hr
        have hne : rx ≠ 0 := by
          intro h
          rw [h, abs_zero] at hm
          norm_num [MIN_AXIS_VELOCITY] at hm
        have hp : 0 < rx ^ 2 :=
          lt_of_le_of_ne (sq_nonneg rx) (Ne.symm (pow_ne_zero 2 hne))
        rw [hcr]
        have h1 := sq_nonneg (_adjust_axis_velocity ry)
        have h2 := sq_nonneg (_adjust_axis_velocity rz)
        linarith
      · have hcr : _adjust_axis_velocity ry = ry := by
          rcases casey with ⟨_, hn⟩ | ⟨hr, _⟩
          · exact absurd hm hn
          · exact hr
        have hne : ry ≠ 0 := by
          intro h
          rw [h, abs_zero] at hm
          norm_num [MIN_AXIS_VELOCITY] at hm
        have hp : 0 < ry ^ 2 :=
          lt_of_le_of_ne (sq_nonneg ry) (Ne.symm (pow_ne_zero 2 hne))
        rw [hcr]
        have h1 := sq_nonneg (_adjust_axis_velocity rx)
        have h2 := sq_nonneg (_adjust_axis_velocity rz)
        linarith
      · have hcr : _adjust_axis_velocity rz = rz := by
          rcases casez with ⟨_, hn⟩ | ⟨hr, _⟩
          · exact absurd hm hn
          · exact hr
        have hne : rz ≠ 0 := by
          intro h
          rw [h, abs_zero] at hm
          norm_num [MIN_AXIS_VELOCITY] at hm
        have hp : 0 < rz ^ 2 :=
          lt_of_le_of_ne (sq_nonneg rz) (Ne.symm (pow_ne_zero 2 hne))
        rw [hcr]
        have h1 := sq_nonneg (_adjust_axis_velocity rx)
        have h2 := sq_nonneg (_adjust_axis_velocity ry)
        linarith
    rw [hA]
    exact Real.sqrt_pos.mpr hsumpos
  rcases eq_or_lt_of_le hAle with hEq | hLt
  · have hcond : ¬(0 < A ∧ A < v) := by
      intro hc
      rw [hEq] at hc
      exact lt_irrefl v hc.2
    have hbody : calculate_velocity_components (sx, sy, sz) (ex, ey, ez) v =
        .ok (_adjust_axis_velocity rx, _adjust_axis_velocity ry,
          _adjust_axis_velocity rz) := by
      unfold calculate_velocity_components
      rw [hval, except_ok_bind]
      dsimp only
      rw [← hD, if_neg hDne, ← hrx, ← hry, ← hrz, ← hA, if_neg hcond]
      rfl
    refine ⟨_adjust_axis_velocity rx, _adjust_axis_velocity ry,
      _adjust_axis_velocity rz, hbody, ?_⟩
    rw [← hA, hEq]
  · have hcond : 0 < A ∧ A < v := ⟨hApos, hLt⟩
    have hk1 : (1 : ℝ) ≤ v / A := (one_le_div hApos).mpr (le_of_lt hLt)
    have hX := clamp_rescale_eq hk1 casex hbx
    have hY := clamp_rescale_eq hk1 casey hby
    have hZ := clamp_rescale_eq hk1 casez hbz
    have hbody : calculate_velocity_components (sx, sy, sz) (ex, ey, ez) v =
        .ok (_adjust_axis_velocity rx * (v / A),
          _adjust_axis_velocity ry * (v / A),
          _adjust_axis_velocity rz * (v / A)) := by
      unfold calculate_velocity_components
      rw [hval, except_ok_bind]
      dsimp only
      rw [← hD, if_neg hDne, ← hrx, ← hry, ← hrz, ← hA, if_pos hcond]
      rw [hX, hY, hZ]
      rfl
    refine ⟨_adjust_axis_velocity rx * (v / A),
      _adjust_axis_velocity ry * (v / A),
      _adjust_axis_velocity rz * (v / A), hbody, ?_⟩
    have hknn : (0 : ℝ) ≤ v / A := le_trans zero_le_one hk1
    have hsq : (_adjust_axis_velocity rx * (v / A)) ^ 2 +
        (_adjust_axis_velocity ry * (v / A)) ^ 2 +
        (_adjust_axis_velocity rz * (v / A)) ^ 2 =
        (v / A) ^ 2 * ((_adjust_axis_velocity rx) ^ 2 +
          (_adjust_axis_velocity ry) ^ 2 +
          (_adjust_axis_velocity rz) ^ 2) := by
      ring
    rw [hsq, Real.sqrt_mul (sq_nonneg (v / A)), Real.sqrt_sq hknn, ← hA]
    exact div_mul_cancel₀ v (ne_of_gt hApos)

/-- Witness for C8: the move from the origin to (3, 4, 0) at total
speed 1/2 has distance 5, raw components (3/10, 2/5, 0) and achieved
norm 1/2, and the returned vector's norm is exactly 1/2. -/
theorem decompose_norm_preserved_witness :
    ∃ wx wy wz,
      calculate_velocity_components ((0 : ℝ), 0, 0) (3, 4, 0) (1 / 2) =
        .ok (wx, wy, wz) ∧
      Real.sqrt (wx ^ 2 + wy ^ 2 + wz ^ 2) = 1 / 2 :=
  decompose_norm_preserved 0 0 0 3 4 0 (1 / 2) 5 (3 / 10) (2 / 5) 0 (1 / 2)
    (by
      rw [show ((3 : ℝ) - 0) ^ 2 + ((4 : ℝ) - 0) ^ 2 + ((0 : ℝ) - 0) ^ 2
            = 5 ^ 2 by norm_num,
        Real.sqrt_sq (by norm_num : (0 : ℝ) ≤ 5)])
    (by norm_num)
    (by norm_num)
    (by norm_num)
    (by norm_num)
    (by norm_num [MIN_AXIS_VELOCITY])
    (by
      simp only [MAX_AXIS_VELOCITY, mul_one]
      have h2 : Real.sqrt 1 ≤ Real.sqrt 3 := Real.sqrt_le_sqrt (by norm_num)
      rw [Real.sqrt_one] at h2
      linarith)
    (Or.inr (by
      rw [abs_of_nonneg (by norm_num : (0 : ℝ) ≤ 3 / 10)]
      constructor <;> norm_num [MIN_AXIS_VELOCITY, MAX_AXIS_VELOCITY]))
    (Or.inr (by
      rw [abs_of_nonneg (by norm_num : (0 : ℝ) ≤ 2 / 5)]
      constructor <;> norm_num [MIN_AXIS_VELOCITY, MAX_AXIS_VELOCITY]))
    (Or.inl (by
      rw [abs_zero]
      norm_num [VELOCITY_THRESHOLD]))
    (by
      rw [adj_pass
          (by rw [abs_of_nonneg (by norm_num : (0 : ℝ) ≤ 3 / 10)]
              norm_num [MIN_AXIS_VELOCITY])
          (by rw [abs_of_nonneg (by norm_num : (0 : ℝ) ≤ 3 / 10)]
              norm_num [MAX_AXIS_VELOCITY]),
        adj_pass
          (by rw [abs_of_nonneg (by norm_num : (0 : ℝ) ≤ 2 / 5)]
              norm_num [MIN_AXIS_VELOCITY])
          (by rw [abs_of_nonneg (by norm_num : (0 : ℝ) ≤ 2 / 5)]
              norm_num [MAX_AXIS_VELOCITY]),
        adj_small (by rw [abs_zero]; norm_num [VELOCITY_THRESHOLD]),
        show ((3 : ℝ) / 10) ^ 2 + ((2 : ℝ) / 5) ^ 2 + (0 : ℝ) ^ 2
            = (1 / 2) ^ 2 by norm_num,
        Real.sqrt_sq (by norm_num : (0 : ℝ) ≤ 1 / 2)])
    (Or.inl (by
      rw [abs_of_nonneg (by norm_num : (0 : ℝ) ≤ 3 / 10)]
      norm_num [MIN_AXIS_VELOCITY]))
    (by
      intro _
      rw [abs_of_nonneg (by norm_num : (0 : ℝ) ≤ 3 / 10)]
      norm_num [MAX_AXIS_VELOCITY])
    (by
      intro _
      rw [abs_of_nonneg (by norm_num : (0 : ℝ) ≤ 2 / 5)]
      norm_num [MAX_AXIS_VELOCITY])
    (by
      intro h
      rw [abs_zero] at h
      norm_num [MIN_AXIS_VELOCITY] at h)

end MiniMBE
